import Mathlib

/-!
Shallow embedding of `src/main.py` of the pfsense2unifi repository: a
one-shot migration tool that extracts DHCP static reservations and static
DNS host entries from a pfSense `config.xml` and pushes them to a UniFi
controller.  The embedding models the XML tree, the extractor
`parse_pfsense_config`, the reservation-payload translation inside
`migrate_dhcp_reservations`, the DNS document fold `generate_dns_json`,
the network-id lookup `get_network_id`, the UniFi pipeline stage of
`main`, and the CLI flag dispatch of `main`.
-/

/-- Rose tree modelling an `xml.etree.ElementTree` element: a tag, an
optional text payload (Python `Element.text`, which is `None` for an
empty element), and a list of child elements in document order. -/
inductive Element where
  | mk (tag : String) (text : Option String) (children : List Element)
deriving Repr

/-- Tag of an element. -/
def Element.tag : Element → String
  | .mk t _ _ => t

/-- Text of an element (`none` models Python `None`). -/
def Element.text : Element → Option String
  | .mk _ t _ => t

/-- Children of an element, in document order. -/
def Element.children : Element → List Element
  | .mk _ _ c => c

/-- Python `element.find(tag)`: the first direct child with the given
tag, or `none` when there is none. -/
def Element.findChild (e : Element) (tag : String) : Option Element :=
  e.children.find? (fun c => c.tag = tag)

mutual

/-- All proper descendants of an element in document order (the nodes
`.//` ranges over in an `ElementTree` path rooted at this element). -/
def Element.properDescendants : Element → List Element
  | .mk _ _ cs => Element.descList cs

/-- Document-order listing of the elements of `cs` together with all of
their descendants. -/
def Element.descList : List Element → List Element
  | [] => []
  | c :: rest => c :: (Element.properDescendants c ++ Element.descList rest)

end

/-- The matches of `root.findall(".//dhcpd//staticmap")`: for each
`dhcpd` descendant of the root, in document order, every `staticmap`
descendant of that `dhcpd`, in document order. -/
def findall_dhcpd_staticmap (root : Element) : List Element :=
  ((root.properDescendants.filter (fun e => e.tag = "dhcpd")).map
    (fun d => d.properDescendants.filter (fun e => e.tag = "staticmap"))).flatten

/-- The matches of `root.findall(".//unbound/hosts")`: for each
`unbound` descendant of the root, in document order, its direct `hosts`
children, in document order. -/
def findall_unbound_hosts (root : Element) : List Element :=
  ((root.properDescendants.filter (fun e => e.tag = "unbound")).map
    (fun u => u.children.filter (fun e => e.tag = "hosts"))).flatten

/-- A DHCP reservation record as built by `parse_pfsense_config`; every
field holds the `.text` of a child element, so each is an
`Option String` (`none` models Python `None`). -/
structure DhcpReservation where
  mac : Option String
  ip : Option String
  hostname : Option String
deriving Repr, DecidableEq

/-- A static DNS entry record as built by `parse_pfsense_config`. -/
structure DnsEntry where
  hostname : Option String
  ip : Option String
  domain : Option String
deriving Repr, DecidableEq

/-- The failure the extractor can actually raise: evaluating
`element.find(tag).text` when `find` returned `None` raises Python's
`AttributeError` (a null dereference that does not identify the
offending node). -/
inductive ExtractError where
  | attributeError
deriving Repr, DecidableEq

/-- Python `element.find(tag).text`: the text of the first child with
the given tag, or an `AttributeError` when no such child exists. -/
def childText (e : Element) (tag : String) : Except ExtractError (Option String) :=
  match e.findChild tag with
  | some c => .ok c.text
  | none => .error .attributeError

/-- The body of the first loop of `parse_pfsense_config` for one matched
`staticmap` node: `mac` and `ipaddr` are read unconditionally (so a
missing child raises), `hostname` falls back to the literal string
"Unknown" when the `hostname` child is absent. -/
def extractReservation (sm : Element) : Except ExtractError DhcpReservation :=
  match childText sm "mac" with
  | .error e => .error e
  | .ok mac =>
    match childText sm "ipaddr" with
    | .error e => .error e
    | .ok ip =>
      .ok ⟨mac, ip,
        match sm.findChild "hostname" with
        | some c => c.text
        | none => some "Unknown"⟩

/-- The body of the second loop of `parse_pfsense_config` for one
matched `hosts` node: `host`, `ip` and `domain` are all read
unconditionally, so any missing child raises. -/
def extractDnsEntry (hn : Element) : Except ExtractError DnsEntry :=
  match childText hn "host" with
  | .error e => .error e
  | .ok host =>
    match childText hn "ip" with
    | .error e => .error e
    | .ok ip =>
      match childText hn "domain" with
      | .error e => .error e
      | .ok domain => .ok ⟨host, ip, domain⟩

/-- A `for` loop appending one extracted record per matched node; the
first failing node aborts the whole run. -/
def extractAll {α β : Type} (f : α → Except ExtractError β) : List α → Except ExtractError (List β)
  | [] => .ok []
  | a :: rest =>
    match f a with
    | .error e => .error e
    | .ok b =>
      match extractAll f rest with
      | .error e => .error e
      | .ok bs => .ok (b :: bs)

/-- The extractor `parse_pfsense_config`: the DHCP loop runs first over
all `.//dhcpd//staticmap` matches, then the DNS loop over all
`.//unbound/hosts` matches, both in document order. -/
def parse_pfsense_config (root : Element) :
    Except ExtractError (List DhcpReservation × List DnsEntry) :=
  match extractAll extractReservation (findall_dhcpd_staticmap root) with
  | .error e => .error e
  | .ok dhcp =>
    match extractAll extractDnsEntry (findall_unbound_hosts root) with
    | .error e => .error e
    | .ok dns => .ok (dhcp, dns)

/-- The payload dictionary built for one reservation inside
`migrate_dhcp_reservations`; the key set is fixed, so it is modelled as
a structure with one field per key. -/
structure ReservationPayload where
  mac : Option String
  fixed_ip : Option String
  name : Option String
  site_id : String
  use_fixedip : Bool
deriving Repr, DecidableEq

/-- The translation of one `DhcpReservation` into the UniFi payload, as
written in the loop body of `migrate_dhcp_reservations`. -/
def reservation_payload (r : DhcpReservation) (network_id : String) : ReservationPayload :=
  { mac := r.mac
    fixed_ip := r.ip
    name := r.hostname
    site_id := network_id
    use_fixedip := true }

/-- JSON-like values as produced by the script: Python string-or-`None`
leaves, lists, and dictionaries whose keys are Python strings-or-`None`
kept in insertion order. -/
inductive Json where
  | str (s : Option String)
  | arr (elems : List Json)
  | obj (fields : List (Option String × Json))
deriving Repr

/-- Python dictionary assignment `d[k] = v`: an existing key keeps its
position and gets the new value, a new key is appended at the end. -/
def dictInsert (fields : List (Option String × Json)) (k : Option String) (v : Json) :
    List (Option String × Json) :=
  if fields.any (fun p => p.1 = k) then
    fields.map (fun p => if p.1 = k then (k, v) else p)
  else
    fields ++ [(k, v)]

/-- Python dictionary read `d.get(k)`: the value stored for the first
occurrence of the key, if any. -/
def dictGet (fields : List (Option String × Json)) (k : Option String) : Option Json :=
  (fields.find? (fun p => p.1 = k)).map (fun p => p.2)

/-- The value assigned per DNS entry: `{"inet": [ip]}`. -/
def inetValue (ip : Option String) : Json :=
  .obj [(some "inet", .arr [.str ip])]

/-- The loop of `generate_dns_json`: starting from the empty inner
dictionary, assign `host-name[entry.hostname] = {"inet": [entry.ip]}`
for each entry in order. -/
def hostNameFold (dns_entries : List DnsEntry) : List (Option String × Json) :=
  dns_entries.foldl (fun m e => dictInsert m e.hostname (inetValue e.ip)) []

/-- The document built by `generate_dns_json`:
`{"system": {"static-host-mapping": {"host-name": { ... }}}}` with the
inner dictionary filled by the per-entry loop. -/
def generate_dns_json (dns_entries : List DnsEntry) : Json :=
  .obj [(some "system",
    .obj [(some "static-host-mapping",
      .obj [(some "host-name", .obj (hostNameFold dns_entries))])])]

/-- A UniFi network as returned by the `networkconf` endpoint, with its
display name and `_id`. -/
structure UnifiNetwork where
  name : String
  id : String
deriving Repr, DecidableEq

/-- Python `str.lower()` on the characters of the string (the names in
play are ASCII, where per-character lowercasing agrees with Python). -/
def pyLower (s : String) : String :=
  ⟨s.data.map Char.toLower⟩

/-- The lookup loop of `get_network_id`: return the `_id` of the first
network whose lowercased name equals the configured LAN name verbatim
(the configured name itself is not lowercased); when none matches, the
script prints an error and calls `exit(1)`, modelled as `.error 1`. -/
def get_network_id (networks : List UnifiNetwork) (lanName : String) : Except Nat String :=
  match networks.find? (fun net => pyLower net.name = lanName) with
  | some net => .ok net.id
  | none => .error 1

/-- Observable per-record events of the UniFi stage, one per print
statement of the script, plus a constructor modelled from the spec.
`addedOk` is the `[+] Added mac -> ip (hostname)` line, `addFailed` the
`[-] Failed to add mac -> ip: reason` line (its reason is the response
body), `generatedDnsJson` the `[+] Generated config.gateway.json` line.
`failureCountReport` is modelled from the spec: the spec requires an
aggregate failure count report at the end of the run; the script has no
print statement for such a count, so the code translation never emits
this event; it exists so that the spec's requirement can be stated. -/
inductive Event where
  | addedOk (mac ip hostname : Option String)
  | addFailed (mac ip : Option String) (reason : String)
  | generatedDnsJson
  | failureCountReport (n : Nat)
deriving Repr, DecidableEq

/-- Whether a trace contains an aggregate failure count report (the
event modelled from the spec; see `Event.failureCountReport`). -/
def reportsAggregateCount (events : List Event) : Bool :=
  events.any (fun e => match e with
    | .failureCountReport _ => true
    | _ => false)

/-- The loop of `migrate_dhcp_reservations` against a stub API: for each
reservation, build the payload, post it, and log success when the
status is 200 and failure with the response body otherwise; failures do
not stop the loop.  `respond` maps a posted payload to the stub's
status code and response body. -/
def migrate_dhcp_reservations (network_id : String) (reservations : List DhcpReservation)
    (respond : ReservationPayload → Nat × String) : List Event :=
  reservations.map (fun r =>
    let payload := reservation_payload r network_id
    if (respond payload).1 = 200 then
      .addedOk r.mac r.ip r.hostname
    else
      .addFailed r.mac r.ip (respond payload).2)

/-- Result of the UniFi stage: the event trace, the written
`config.gateway.json` document when the run got that far, and the
process exit code. -/
structure RunResult where
  events : List Event
  dnsDocument : Option Json
  exitCode : Nat
deriving Repr

/-- The UniFi stage of `main` (both in the `--all` and the
`--unifiOnly` branch) from the network-id lookup on: a failed lookup
exits with code 1 before any reservation-creation call; otherwise all
reservations are submitted and `config.gateway.json` is written. -/
def run_unifi_stage (networks : List UnifiNetwork) (lanName : String)
    (reservations : List DhcpReservation) (dns_entries : List DnsEntry)
    (respond : ReservationPayload → Nat × String) : RunResult :=
  match get_network_id networks lanName with
  | .error c => ⟨[], none, c⟩
  | .ok network_id =>
    let events := migrate_dhcp_reservations network_id reservations respond
    ⟨events ++ [.generatedDnsJson], some (generate_dns_json dns_entries), 0⟩

/-- The parsed command-line flags (`argparse` stores four booleans). -/
structure Args where
  all : Bool
  pfsense : Bool
  unifi : Bool
  verbose : Bool
deriving Repr, DecidableEq

/-- Pipeline stages `main` can run, one per called function. -/
inductive Stage where
  | fetch
  | parseConfig
  | login
  | siteName
  | networkId
  | migrate
  | genDns
deriving Repr, DecidableEq

/-- Outcome of `main`'s flag dispatch: whether usage was printed,
the exit code on the dispatch path (1 from the no-arguments check,
otherwise 0 assuming every executed stage succeeds), and the stages run
in order. -/
structure CliOutcome where
  usagePrinted : Bool
  exitCode : Nat
  stages : List Stage
deriving Repr, DecidableEq

/-- Stages of the full `--all` branch of `main`. -/
def allStages : List Stage :=
  [.fetch, .parseConfig, .login, .siteName, .networkId, .migrate, .genDns]

/-- The flag dispatch of `main`: `if not any(vars(args).values())`
prints the help text and exits 1 — the `verbose` flag counts towards
`any`, so a verbose-only invocation passes the check, runs no stage,
and falls through to a normal exit. -/
def main_dispatch (a : Args) : CliOutcome :=
  if !(a.all || a.pfsense || a.unifi || a.verbose) then
    ⟨true, 1, []⟩
  else
    ⟨false, 0,
      (if a.all then allStages else []) ++
      (if a.pfsense && !a.all then [.fetch, .parseConfig] else []) ++
      (if a.unifi && !a.all then
        [.parseConfig, .login, .siteName, .networkId, .migrate, .genDns] else [])⟩

/-- Shorthand constructor for sample documents. -/
def el (tag : String) (text : Option String) (children : List Element) : Element :=
  .mk tag text children

/-- Sample `config.xml` with two staticmap nodes (the second without a
hostname child) and one unbound host entry. -/
def sampleDoc : Element :=
  el "pfsense" none
    [ el "dhcpd" none
        [ el "lan" none
            [ el "staticmap" none
                [ el "mac" (some "aa:bb") [], el "ipaddr" (some "10.0.0.5") [],
                  el "hostname" (some "pc1") [] ],
              el "staticmap" none
                [ el "mac" (some "cc:dd") [], el "ipaddr" (some "10.0.0.6") [] ] ] ],
      el "unbound" none
        [ el "hosts" none
            [ el "host" (some "printer") [], el "ip" (some "10.0.0.60") [],
              el "domain" (some "lan") [] ] ] ]

/-- A staticmap node with an `ipaddr` child but no `mac` child. -/
def staticmapNoMac : Element :=
  el "staticmap" none [ el "ipaddr" (some "10.0.0.5") [] ]

/-- A staticmap node with a `mac` child but no `ipaddr` child. -/
def staticmapNoIpaddr : Element :=
  el "staticmap" none [ el "mac" (some "aa:bb") [] ]

/-- Document whose single staticmap node lacks the `mac` child. -/
def docMissingMac : Element :=
  el "pfsense" none [ el "dhcpd" none [ staticmapNoMac ] ]

/-- Document whose single staticmap node lacks the `ipaddr` child. -/
def docMissingIpaddr : Element :=
  el "pfsense" none [ el "dhcpd" none [ staticmapNoIpaddr ] ]

/-- A DNS `hosts` node with `host` and `ip` children but no `domain`
child. -/
def hostsNodeNoDomain : Element :=
  el "hosts" none [ el "host" (some "printer") [], el "ip" (some "10.0.0.60") [] ]

/-- Document whose single unbound host node lacks the `domain`
child. -/
def docNoDomain : Element :=
  el "pfsense" none [ el "unbound" none [ hostsNodeNoDomain ] ]

/-- Sample reservations for the UniFi-stage runs. -/
def r1 : DhcpReservation := ⟨some "m1", some "10.0.0.1", some "h1"⟩

/-- Second sample reservation; the stub responder rejects this one. -/
def r2 : DhcpReservation := ⟨some "m2", some "10.0.0.2", some "h2"⟩

/-- Third sample reservation. -/
def r3 : DhcpReservation := ⟨some "m3", some "10.0.0.3", some "h3"⟩

/-- Sample network list holding one network named `LAN`. -/
def netsSample : List UnifiNetwork := [⟨"LAN", "netid1"⟩]

/-- Sample DNS entries written to `config.gateway.json`. -/
def dnsSample : List DnsEntry := [⟨some "printer", some "10.0.0.60", some "lan"⟩]

/-- Stub responder that rejects the payload of `r2` with a 400 status
and accepts everything else with 200. -/
def respondFail2 : ReservationPayload → Nat × String :=
  fun p => if p.mac = some "m2" then (400, "bad request") else (200, "ok")

/-! Helper lemmas. -/

theorem extractAll_ok_length {α β : Type} (f : α → Except ExtractError β) :
    ∀ (l : List α) (ys : List β), extractAll f l = .ok ys → ys.length = l.length := by
  intro l
  induction l with
  | nil =>
    intro ys h
    simp only [extractAll] at h
    cases h
    rfl
  | cons a rest ih =>
    intro ys h
    simp only [extractAll] at h
    split at h
    next e heq => simp at h
    next b heq =>
      split at h
      next e2 heq2 => simp at h
      next bs heq2 =>
        cases h
        simp [ih bs heq2]

theorem extractAll_ok_get {α β : Type} (f : α → Except ExtractError β) :
    ∀ (l : List α) (ys : List β), extractAll f l = .ok ys →
      ∀ i (h1 : i < l.length) (h2 : i < ys.length),
        f (l.get ⟨i, h1⟩) = .ok (ys.get ⟨i, h2⟩) := by
  intro l
  induction l with
  | nil =>
    intro ys h i h1 h2
    exact absurd h1 (by simp)
  | cons a rest ih =>
    intro ys h i h1 h2
    simp only [extractAll] at h
    split at h
    next e heq => simp at h
    next b heq =>
      split at h
      next e2 heq2 => simp at h
      next bs heq2 =>
        cases h
        cases i with
        | zero => simpa using heq
        | succ j =>
          have hj1 : j < rest.length := by simpa using h1
          have hj2 : j < bs.length := by simpa using h2
          simpa using ih bs heq2 j hj1 hj2

theorem dictGet_eq_head_filter (m : List (Option String × Json)) (k : Option String) :
    dictGet m k = ((m.filter (fun p => p.1 = k)).head?).map (fun p => p.2) := by
  induction m with
  | nil => rfl
  | cons p m ih =>
    by_cases hp : p.1 = k
    · simp [dictGet, List.find?_cons_of_pos, List.filter_cons, hp]
    · simp only [dictGet, List.filter_cons] at *
      rw [List.find?_cons_of_neg _ (by simpa using hp)]
      simp [hp, ih]

theorem filter_map_overwrite (k h : Option String) (v : Json) :
    ∀ (m : List (Option String × Json)), (m.map Prod.fst).Nodup →
    (m.map (fun p => if p.1 = k then (k, v) else p)).filter (fun p => p.1 = h) =
      if h = k then (if m.any (fun p => p.1 = k) then [(k, v)] else [])
      else m.filter (fun p => p.1 = h) := by
  intro m
  induction m with
  | nil =>
    intro _
    by_cases hh : h = k <;> simp [hh]
  | cons p m ih =>
    intro hnd
    rw [List.map_cons, List.nodup_cons] at hnd
    obtain ⟨hmem, hnd'⟩ := hnd
    rw [List.map_cons, List.filter_cons]
    by_cases hp : p.1 = k
    · have hany : m.any (fun q => q.1 = k) = false := by
        rw [List.any_eq_false]
        intro x hx
        simp only [decide_eq_true_eq]
        intro hxk
        exact hmem (hp ▸ hxk ▸ List.mem_map_of_mem Prod.fst hx)
      rw [if_pos hp]
      by_cases hh : h = k
      · subst hh
        rw [ih hnd']
        simp [hany, List.any_cons, hp]
      · have hph : ¬p.1 = h := by rw [hp]; intro hkh; exact hh hkh.symm
        have hkh : ¬k = h := fun e => hh e.symm
        rw [ih hnd']
        simp [hh, hkh, hph, List.filter_cons]
    · rw [if_neg hp]
      by_cases hh : h = k
      · subst hh
        rw [ih hnd']
        rw [List.any_cons, decide_eq_false hp, Bool.false_or]
        simp
      · rw [ih hnd']
        simp [hh, List.filter_cons]

theorem dictInsert_filter (m : List (Option String × Json)) (k h : Option String) (v : Json)
    (hnd : (m.map Prod.fst).Nodup) :
    (dictInsert m k v).filter (fun p => p.1 = h) =
      if h = k then [(k, v)] else m.filter (fun p => p.1 = h) := by
  unfold dictInsert
  split
  next hA =>
    rw [filter_map_overwrite k h v m hnd, hA]
    by_cases hh : h = k <;> simp [hh]
  next hA =>
    rw [Bool.not_eq_true, List.any_eq_false] at hA
    rw [List.filter_append]
    by_cases hh : h = k
    · subst hh
      have h1 : m.filter (fun p => p.1 = h) = [] := by
        rw [List.filter_eq_nil_iff]
        exact hA
      simp [h1, List.filter_cons]
    · have hkh : ¬k = h := fun e => hh e.symm
      simp [List.filter_cons, hkh, hh]

theorem dictInsert_keys_nodup (m : List (Option String × Json)) (k : Option String) (v : Json)
    (hnd : (m.map Prod.fst).Nodup) :
    ((dictInsert m k v).map Prod.fst).Nodup := by
  unfold dictInsert
  split
  next hA =>
    have hkeys : (m.map (fun p => if p.1 = k then (k, v) else p)).map Prod.fst = m.map Prod.fst := by
      rw [List.map_map]
      apply List.map_congr_left
      intro p _
      by_cases hp : p.1 = k
      · simp [Function.comp, hp]
      · simp [Function.comp, hp]
    rw [hkeys]
    exact hnd
  next hA =>
    rw [Bool.not_eq_true, List.any_eq_false] at hA
    rw [List.map_append, List.nodup_append]
    refine ⟨hnd, by simp, ?_⟩
    intro x hx
    simp only [List.map_cons, List.map_nil, List.mem_singleton]
    intro hxk
    subst hxk
    obtain ⟨p, hp, hpk⟩ := List.mem_map.mp hx
    exact absurd (by simpa using hpk) (by simpa using hA p hp)

theorem hostNameFold_append_single (l : List DnsEntry) (e : DnsEntry) :
    hostNameFold (l ++ [e]) = dictInsert (hostNameFold l) e.hostname (inetValue e.ip) := by
  simp [hostNameFold, List.foldl_append]

theorem hostNameFold_spec (l : List DnsEntry) :
    ((hostNameFold l).map Prod.fst).Nodup ∧
    ∀ h, (hostNameFold l).filter (fun p => p.1 = h) =
      (match (l.filter (fun e => e.hostname = h)).getLast? with
       | some e => [(h, inetValue e.ip)]
       | none => []) := by
  induction l using List.reverseRecOn with
  | nil => exact ⟨by simp [hostNameFold], fun h => by simp [hostNameFold]⟩
  | append_singleton l e ih =>
    obtain ⟨ihn, ihf⟩ := ih
    rw [hostNameFold_append_single]
    refine ⟨dictInsert_keys_nodup _ _ _ ihn, ?_⟩
    intro h
    rw [dictInsert_filter _ _ _ _ ihn, List.filter_append]
    by_cases hh : h = e.hostname
    · rw [if_pos hh]
      have he : List.filter (fun x => decide (x.hostname = h)) [e] = [e] := by
        simp [List.filter_cons, hh.symm]
      rw [he, List.getLast?_concat, hh]
    · rw [if_neg hh]
      have he : List.filter (fun x => decide (x.hostname = h)) [e] = [] := by
        simp only [List.filter, decide_eq_true_eq]
        rw [decide_eq_false (fun hc => hh hc.symm)]
      rw [he, List.append_nil]
      exact ihf h

theorem hostNameFold_mem_keys (l : List DnsEntry) (h : Option String) :
    (∃ p ∈ hostNameFold l, p.1 = h) ↔ h ∈ l.map DnsEntry.hostname := by
  obtain ⟨_, hf⟩ := hostNameFold_spec l
  constructor
  · rintro ⟨p, hp, hph⟩
    have hpf : p ∈ (hostNameFold l).filter (fun q => q.1 = h) :=
      List.mem_filter.mpr ⟨hp, by simp [hph]⟩
    rw [hf h] at hpf
    cases hlast : (l.filter (fun e => e.hostname = h)).getLast? with
    | none => rw [hlast] at hpf; simp at hpf
    | some e =>
      obtain ⟨hne, hegl⟩ := List.mem_getLast?_eq_getLast (l := _) (x := e) hlast
      have hm : e ∈ l.filter (fun e => e.hostname = h) := hegl ▸ List.getLast_mem hne
      obtain ⟨hml, hpe⟩ := List.mem_filter.mp hm
      rw [List.mem_map]
      exact ⟨e, hml, by simpa using hpe⟩
  · intro hm
    obtain ⟨e, hel, heh⟩ := List.mem_map.mp hm
    have hne : l.filter (fun e => e.hostname = h) ≠ [] := by
      rw [Ne, List.filter_eq_nil_iff]
      push_neg
      exact ⟨e, hel, by simp [heh]⟩
    obtain ⟨x, hx⟩ := Option.isSome_iff_exists.mp (List.getLast?_isSome.mpr hne)
    have hfx := hf h
    rw [hx] at hfx
    refine ⟨(h, inetValue x.ip), ?_, rfl⟩
    have hmem : (h, inetValue x.ip) ∈ (hostNameFold l).filter (fun p => p.1 = h) := by
      rw [hfx]; exact List.mem_singleton.mpr rfl
    exact (List.mem_filter.mp hmem).1

theorem hostNameFold_get_last (l : List DnsEntry) (h : Option String) (e : DnsEntry)
    (hlast : (l.filter (fun x => x.hostname = h)).getLast? = some e) :
    dictGet (hostNameFold l) h = some (inetValue e.ip) := by
  obtain ⟨_, hf⟩ := hostNameFold_spec l
  rw [dictGet_eq_head_filter, hf h, hlast]
  rfl

theorem parse_ok_inv (root : Element) (dhcp : List DhcpReservation) (dns : List DnsEntry)
    (h : parse_pfsense_config root = .ok (dhcp, dns)) :
    extractAll extractReservation (findall_dhcpd_staticmap root) = .ok dhcp ∧
    extractAll extractDnsEntry (findall_unbound_hosts root) = .ok dns := by
  simp only [parse_pfsense_config] at h
  split at h
  next e heq => simp at h
  next d heq =>
    split at h
    next e2 heq2 => simp at h
    next n heq2 =>
      rw [Except.ok.injEq, Prod.mk.injEq] at h
      obtain ⟨h1, h2⟩ := h
      subst h1; subst h2
      exact ⟨heq, heq2⟩

/-! Claim theorems. -/

/-- Claim C1: whenever the extractor succeeds, it returns one DHCP record
per staticmap node matched under the dhcpd section and one DNS record per
matched host node, and both lists are in document order: the i-th record
is the one extracted from the i-th matched node. -/
theorem extractor_counts_and_document_order (root : Element)
    (dhcp : List DhcpReservation) (dns : List DnsEntry)
    (h : parse_pfsense_config root = .ok (dhcp, dns)) :
    dhcp.length = (findall_dhcpd_staticmap root).length ∧
    dns.length = (findall_unbound_hosts root).length ∧
    (∀ i (h1 : i < (findall_dhcpd_staticmap root).length) (h2 : i < dhcp.length),
      extractReservation ((findall_dhcpd_staticmap root).get ⟨i, h1⟩) =
        .ok (dhcp.get ⟨i, h2⟩)) ∧
    (∀ i (h1 : i < (findall_unbound_hosts root).length) (h2 : i < dns.length),
      extractDnsEntry ((findall_unbound_hosts root).get ⟨i, h1⟩) =
        .ok (dns.get ⟨i, h2⟩)) := by
  obtain ⟨hd, hn⟩ := parse_ok_inv root dhcp dns h
  exact ⟨extractAll_ok_length _ _ _ hd, extractAll_ok_length _ _ _ hn,
    fun i h1 h2 => extractAll_ok_get _ _ _ hd i h1 h2,
    fun i h1 h2 => extractAll_ok_get _ _ _ hn i h1 h2⟩

/-- Witness for C1: the sample document has two staticmap nodes and one
host node, and the extractor returns exactly two DHCP records and one
DNS record on it. -/
theorem extractor_counts_and_document_order_witness :
    (2 : Nat) = (findall_dhcpd_staticmap sampleDoc).length ∧
    (1 : Nat) = (findall_unbound_hosts sampleDoc).length := by
  have h := extractor_counts_and_document_order sampleDoc
    [⟨some "aa:bb", some "10.0.0.5", some "pc1"⟩,
     ⟨some "cc:dd", some "10.0.0.6", some "Unknown"⟩]
    [⟨some "printer", some "10.0.0.60", some "lan"⟩] rfl
  exact ⟨h.1, h.2.1⟩

/-- Claim C2: the reservation translator is a pure deterministic total
function producing exactly the payload map with mac, fixed_ip, name,
site_id and use_fixedip, with use_fixedip true in every payload, and
equal inputs give identical payloads. -/
theorem reservation_payload_shape (r r' : DhcpReservation) (nid nid' : String)
    (hr : r = r') (hn : nid = nid') :
    reservation_payload r nid =
      { mac := r.mac, fixed_ip := r.ip, name := r.hostname,
        site_id := nid, use_fixedip := true } ∧
    (reservation_payload r nid).use_fixedip = true ∧
    reservation_payload r nid = reservation_payload r' nid' := by
  subst hr; subst hn
  exact ⟨rfl, rfl, rfl⟩

/-- Witness for C2 at a concrete record and network id. -/
theorem reservation_payload_shape_witness :
    reservation_payload r1 "netid1" =
      { mac := some "m1", fixed_ip := some "10.0.0.1", name := some "h1",
        site_id := "netid1", use_fixedip := true } ∧
    (reservation_payload r1 "netid1").use_fixedip = true ∧
    reservation_payload r1 "netid1" = reservation_payload r1 "netid1" :=
  reservation_payload_shape r1 r1 "netid1" "netid1" rfl rfl

/-- Claim C3: a matched staticmap node with mac and ipaddr children but
no hostname child yields a record whose hostname is the literal
"Unknown" and whose mac and ip are the texts of the mac and ipaddr
children, verbatim. -/
theorem hostname_defaults_to_unknown (sm cm ci : Element)
    (hm : sm.findChild "mac" = some cm) (hi : sm.findChild "ipaddr" = some ci)
    (hh : sm.findChild "hostname" = none) :
    extractReservation sm = .ok ⟨cm.text, ci.text, some "Unknown"⟩ := by
  unfold extractReservation childText
  rw [hm, hi, hh]

/-- Witness for C3 at a concrete staticmap node without a hostname
child. -/
theorem hostname_defaults_to_unknown_witness :
    extractReservation (el "staticmap" none
      [el "mac" (some "cc:dd") [], el "ipaddr" (some "10.0.0.6") []]) =
      .ok ⟨some "cc:dd", some "10.0.0.6", some "Unknown"⟩ :=
  hostname_defaults_to_unknown
    (el "staticmap" none [el "mac" (some "cc:dd") [], el "ipaddr" (some "10.0.0.6") []])
    (el "mac" (some "cc:dd") []) (el "ipaddr" (some "10.0.0.6") []) rfl rfl rfl

/-- Claim C6 (evaluation at the failing inputs): a staticmap node
missing its mac child, and one missing its ipaddr child, make the whole
extraction fail with the untyped attribute error (the Python
null-dereference), which carries no identification of the offending
node — not with a typed MissingFieldError naming it. -/
theorem missing_required_field_untyped_error :
    parse_pfsense_config docMissingMac = .error .attributeError ∧
    parse_pfsense_config docMissingIpaddr = .error .attributeError :=
  ⟨rfl, rfl⟩

/-- Claim C7 counterexample: the single matched DNS host node of this
document has host and ip children and no domain child, and extraction
fails on it instead of succeeding with a record. -/
theorem domain_absent_extraction_fails :
    findall_unbound_hosts docNoDomain = [hostsNodeNoDomain] ∧
    (hostsNodeNoDomain.findChild "host").isSome = true ∧
    (hostsNodeNoDomain.findChild "ip").isSome = true ∧
    hostsNodeNoDomain.findChild "domain" = none ∧
    parse_pfsense_config docNoDomain = .error .attributeError :=
  ⟨rfl, rfl, rfl, rfl, rfl⟩

/-- Claim C7 amended: the domain child is required by the extractor: a
matched DNS host node with host and ip children fails with the untyped
attribute error when the domain child is absent, and yields the record
of the three child texts when it is present. -/
theorem domain_child_required (hn ch ci : Element)
    (hh : hn.findChild "host" = some ch) (hi : hn.findChild "ip" = some ci) :
    (hn.findChild "domain" = none → extractDnsEntry hn = .error .attributeError) ∧
    (∀ cd, hn.findChild "domain" = some cd →
      extractDnsEntry hn = .ok ⟨ch.text, ci.text, cd.text⟩) := by
  constructor
  · intro hd
    unfold extractDnsEntry childText
    rw [hh, hi, hd]
  · intro cd hd
    unfold extractDnsEntry childText
    rw [hh, hi, hd]

/-- Witness for C7 amended: at a node without domain the extraction
errors; at a node with domain it yields the record. -/
theorem domain_child_required_witness :
    extractDnsEntry hostsNodeNoDomain = .error .attributeError ∧
    extractDnsEntry (el "hosts" none
      [el "host" (some "printer") [], el "ip" (some "10.0.0.60") [],
       el "domain" (some "lan") []]) =
      .ok ⟨some "printer", some "10.0.0.60", some "lan"⟩ :=
  ⟨(domain_child_required hostsNodeNoDomain
      (el "host" (some "printer") []) (el "ip" (some "10.0.0.60") []) rfl rfl).1 rfl,
   (domain_child_required (el "hosts" none
      [el "host" (some "printer") [], el "ip" (some "10.0.0.60") [],
       el "domain" (some "lan") []])
      (el "host" (some "printer") []) (el "ip" (some "10.0.0.60") []) rfl rfl).2
      (el "domain" (some "lan") []) rfl⟩

/-- Claim C4: generate_dns_json produces exactly the nested shape
system / static-host-mapping / host-name, the inner dictionary has one
key per distinct hostname of the input (its keys are unique, and a
hostname is a key iff it occurs in the input), and each hostname maps
to the object holding a single-element inet list with the IP of the
last entry folded for that hostname. -/
theorem dns_json_shape_and_keys (entries : List DnsEntry) :
    generate_dns_json entries =
      Json.obj [(some "system", Json.obj [(some "static-host-mapping",
        Json.obj [(some "host-name", Json.obj (hostNameFold entries))])])] ∧
    ((hostNameFold entries).map Prod.fst).Nodup ∧
    (∀ h, (∃ p ∈ hostNameFold entries, p.1 = h) ↔ h ∈ entries.map DnsEntry.hostname) ∧
    (∀ h e, (entries.filter (fun x => x.hostname = h)).getLast? = some e →
      dictGet (hostNameFold entries) h =
        some (Json.obj [(some "inet", Json.arr [Json.str e.ip])])) :=
  ⟨rfl, (hostNameFold_spec entries).1, fun h => hostNameFold_mem_keys entries h,
    fun h e hlast => hostNameFold_get_last entries h e hlast⟩

/-- Witness for C4: the sample entry printer maps to the single-element
inet list holding its IP. -/
theorem dns_json_shape_and_keys_witness :
    dictGet (hostNameFold dnsSample) (some "printer") =
      some (Json.obj [(some "inet", Json.arr [Json.str (some "10.0.0.60")])]) :=
  (dns_json_shape_and_keys dnsSample).2.2.2 (some "printer")
    ⟨some "printer", some "10.0.0.60", some "lan"⟩ rfl

/-- Claim C5: duplicate hostnames are last-write-wins: when two folded
records share a hostname (and differ in IP) and no later record uses
that hostname, the output dictionary holds exactly one entry for that
hostname, containing only the IP of the record folded last. -/
theorem dns_json_last_write_wins (l1 l2 l3 : List DnsEntry) (e1 e2 : DnsEntry)
    (hsame : e1.hostname = e2.hostname) (hdiff : e1.ip ≠ e2.ip)
    (hafter : ∀ e ∈ l3, e.hostname ≠ e2.hostname) :
    (hostNameFold (l1 ++ e1 :: (l2 ++ e2 :: l3))).filter (fun p => p.1 = e2.hostname) =
      [(e2.hostname, inetValue e2.ip)] ∧
    dictGet (hostNameFold (l1 ++ e1 :: (l2 ++ e2 :: l3))) e2.hostname =
      some (inetValue e2.ip) := by
  have hfl3 : l3.filter (fun x => x.hostname = e2.hostname) = [] := by
    rw [List.filter_eq_nil_iff]
    intro a ha
    simpa using hafter a ha
  have hfe : (l1 ++ e1 :: (l2 ++ e2 :: l3)).filter (fun x => x.hostname = e2.hostname) =
      (l1.filter (fun x => x.hostname = e2.hostname) ++
        e1 :: l2.filter (fun x => x.hostname = e2.hostname)) ++ [e2] := by
    simp [List.filter_append, List.filter_cons, hsame, hfl3]
  have hlast : ((l1 ++ e1 :: (l2 ++ e2 :: l3)).filter
      (fun x => x.hostname = e2.hostname)).getLast? = some e2 := by
    rw [hfe, List.getLast?_concat]
  obtain ⟨_, hf⟩ := hostNameFold_spec (l1 ++ e1 :: (l2 ++ e2 :: l3))
  constructor
  · rw [hf e2.hostname, hlast]
  · exact hostNameFold_get_last _ _ _ hlast

/-- Witness for C5 at two concrete entries sharing hostname a with IPs
1 and 2: only IP 2 survives. -/
theorem dns_json_last_write_wins_witness :
    (hostNameFold [⟨some "a", some "1", none⟩, ⟨some "a", some "2", none⟩]).filter
      (fun p => p.1 = some "a") = [(some "a", inetValue (some "2"))] ∧
    dictGet (hostNameFold [⟨some "a", some "1", none⟩, ⟨some "a", some "2", none⟩])
      (some "a") = some (inetValue (some "2")) :=
  dns_json_last_write_wins [] [] [] ⟨some "a", some "1", none⟩ ⟨some "a", some "2", none⟩
    rfl (by decide) (by simp)

/-- Claim C8 counterexample: a network literally named LAN case-
insensitively matches the configured name LAN, and lan matches LAN,
yet the lookup exits with code 1 in both runs, because only the
network's name is lowercased before the verbatim comparison. -/
theorem network_lookup_not_case_insensitive :
    pyLower "LAN" = pyLower "lan" ∧
    get_network_id [⟨"LAN", "netid1"⟩] "LAN" = .error 1 ∧
    get_network_id [⟨"lan", "netid1"⟩] "LAN" = .error 1 :=
  ⟨rfl, rfl, rfl⟩

/-- Claim C8 amended: the lookup returns the id of a network whose
lowercased name equals the configured LAN name verbatim (the configured
name is not lowercased), and when no network's lowercased name equals
the configured name, the stage exits with code 1 before any
reservation-creation call and without writing the DNS document. -/
theorem network_lookup_and_fatal_abort (networks : List UnifiNetwork) (lanName : String) :
    (∀ nid, get_network_id networks lanName = .ok nid →
      ∃ net, net ∈ networks ∧ pyLower net.name = lanName ∧ net.id = nid) ∧
    ((∀ net, net ∈ networks → pyLower net.name ≠ lanName) →
      ∀ rs dns respond, run_unifi_stage networks lanName rs dns respond =
        ⟨[], none, 1⟩) := by
  constructor
  · intro nid hid
    unfold get_network_id at hid
    cases hfind : networks.find? (fun net => pyLower net.name = lanName) with
    | none => rw [hfind] at hid; simp at hid
    | some net =>
      rw [hfind] at hid
      simp only [Except.ok.injEq] at hid
      exact ⟨net, List.mem_of_find?_eq_some hfind,
        by simpa using List.find?_some hfind, hid⟩
  · intro hnone rs dns respond
    unfold run_unifi_stage get_network_id
    have hfind : networks.find? (fun net => pyLower net.name = lanName) = none := by
      rw [List.find?_eq_none]
      intro x hx
      simpa using hnone x hx
    rw [hfind]

/-- Witness for C8 amended: a successful lookup on a matching network
and an aborting run on a non-matching one. -/
theorem network_lookup_and_fatal_abort_witness :
    (∃ net, net ∈ netsSample ∧ pyLower net.name = "lan" ∧ net.id = "netid1") ∧
    run_unifi_stage [⟨"Guest", "gid"⟩] "lan" [] [] (fun _ => (200, "ok")) =
      ⟨[], none, 1⟩ :=
  ⟨(network_lookup_and_fatal_abort netsSample "lan").1 "netid1" rfl,
   (network_lookup_and_fatal_abort [⟨"Guest", "gid"⟩] "lan").2
     (by decide) [] [] (fun _ => (200, "ok"))⟩

/-- Claim C9 counterexample: with three reservations of which the stub
rejects the second, the run completes with exit code 0, logs the two
successes and the one failure with its server-reported reason,
still writes the DNS document — and reports no aggregate failure count
anywhere in the trace. -/
theorem no_aggregate_failure_count :
    run_unifi_stage netsSample "lan" [r1, r2, r3] dnsSample respondFail2 =
      ⟨[.addedOk (some "m1") (some "10.0.0.1") (some "h1"),
        .addFailed (some "m2") (some "10.0.0.2") "bad request",
        .addedOk (some "m3") (some "10.0.0.3") (some "h3"),
        .generatedDnsJson],
       some (generate_dns_json dnsSample), 0⟩ ∧
    reportsAggregateCount
      (run_unifi_stage netsSample "lan" [r1, r2, r3] dnsSample respondFail2).events =
      false :=
  ⟨rfl, rfl⟩

/-- Claim C9 amended: per-record creation failures are non-fatal: after
a successful network lookup every reservation is submitted, one log
event per record, each failing record logged with the server-reported
reason, the DNS output document is still written and the stage exits 0;
no aggregate failure count is reported in the trace. -/
theorem per_record_failures_nonfatal (networks : List UnifiNetwork) (lanName nid : String)
    (rs : List DhcpReservation) (dns : List DnsEntry)
    (respond : ReservationPayload → Nat × String)
    (hok : get_network_id networks lanName = .ok nid) :
    run_unifi_stage networks lanName rs dns respond =
      ⟨migrate_dhcp_reservations nid rs respond ++ [.generatedDnsJson],
       some (generate_dns_json dns), 0⟩ ∧
    (migrate_dhcp_reservations nid rs respond).length = rs.length ∧
    (∀ i (h1 : i < rs.length) (h2 : i < (migrate_dhcp_reservations nid rs respond).length),
      (respond (reservation_payload (rs.get ⟨i, h1⟩) nid)).1 ≠ 200 →
        (migrate_dhcp_reservations nid rs respond).get ⟨i, h2⟩ =
          .addFailed (rs.get ⟨i, h1⟩).mac (rs.get ⟨i, h1⟩).ip
            (respond (reservation_payload (rs.get ⟨i, h1⟩) nid)).2) ∧
    reportsAggregateCount
      (run_unifi_stage networks lanName rs dns respond).events = false := by
  have hrun : run_unifi_stage networks lanName rs dns respond =
      ⟨migrate_dhcp_reservations nid rs respond ++ [.generatedDnsJson],
       some (generate_dns_json dns), 0⟩ := by
    unfold run_unifi_stage
    rw [hok]
  refine ⟨hrun, List.length_map _ _, ?_, ?_⟩
  · intro i h1 h2 hfail
    unfold migrate_dhcp_reservations at h2 ⊢
    rw [List.get_map]
    rw [if_neg hfail]
  · rw [hrun]
    unfold reportsAggregateCount
    rw [List.any_append]
    have h2 : ([Event.generatedDnsJson].any (fun e => match e with
        | .failureCountReport _ => true
        | _ => false)) = false := rfl
    have h1 : ((migrate_dhcp_reservations nid rs respond).any (fun e => match e with
        | .failureCountReport _ => true
        | _ => false)) = false := by
      rw [List.any_eq_false]
      intro x hx
      unfold migrate_dhcp_reservations at hx
      obtain ⟨r, _, hr⟩ := List.mem_map.mp hx
      by_cases hc : (respond (reservation_payload r nid)).1 = 200
      · rw [if_pos hc] at hr
        rw [← hr]
        simp
      · rw [if_neg hc] at hr
        rw [← hr]
        simp
    rw [h1, h2]
    rfl

/-- Witness for C9 amended at the three-reservation sample run. -/
theorem per_record_failures_nonfatal_witness :
    run_unifi_stage netsSample "lan" [r1, r2, r3] dnsSample respondFail2 =
      ⟨migrate_dhcp_reservations "netid1" [r1, r2, r3] respondFail2 ++
        [.generatedDnsJson], some (generate_dns_json dnsSample), 0⟩ ∧
    (migrate_dhcp_reservations "netid1" [r1, r2, r3] respondFail2).length = 3 ∧
    reportsAggregateCount
      (run_unifi_stage netsSample "lan" [r1, r2, r3] dnsSample respondFail2).events =
      false :=
  ⟨(per_record_failures_nonfatal netsSample "lan" "netid1" [r1, r2, r3]
      dnsSample respondFail2 rfl).1,
   (per_record_failures_nonfatal netsSample "lan" "netid1" [r1, r2, r3]
      dnsSample respondFail2 rfl).2.1,
   (per_record_failures_nonfatal netsSample "lan" "netid1" [r1, r2, r3]
      dnsSample respondFail2 rfl).2.2.2⟩

/-- Claim C10 counterexample: an invocation with only the verbose flag
set does not print usage and exits 0 (running no pipeline stage). -/
theorem verbose_only_skips_usage_check :
    main_dispatch ⟨false, false, false, true⟩ = ⟨false, 0, []⟩ :=
  rfl

/-- Claim C10 amended: with no mode flag, no pipeline stage runs; when
no flag at all is given, usage is printed and the exit code is 1; but a
verbose-only invocation passes the any-flag check, prints no usage and
exits 0. -/
theorem no_mode_flag_dispatch (a : Args) (hall : a.all = false)
    (hp : a.pfsense = false) (hu : a.unifi = false) :
    (main_dispatch a).stages = [] ∧
    (a.verbose = false → main_dispatch a = ⟨true, 1, []⟩) ∧
    (a.verbose = true → main_dispatch a = ⟨false, 0, []⟩) := by
  unfold main_dispatch
  rw [hall, hp, hu]
  cases hv : a.verbose <;> simp [hv]

/-- Witness for C10 amended at the all-false and verbose-only flag
vectors. -/
theorem no_mode_flag_dispatch_witness :
    (main_dispatch ⟨false, false, false, false⟩).stages = [] ∧
    main_dispatch ⟨false, false, false, false⟩ = ⟨true, 1, []⟩ ∧
    (main_dispatch ⟨false, false, false, true⟩).stages = [] :=
  ⟨(no_mode_flag_dispatch ⟨false, false, false, false⟩ rfl rfl rfl).1,
   (no_mode_flag_dispatch ⟨false, false, false, false⟩ rfl rfl rfl).2.1 rfl,
   (no_mode_flag_dispatch ⟨false, false, false, true⟩ rfl rfl rfl).1⟩
